import Mathlib

/-!
Verification of the agent tool-calling loop of this repository.

The core of the repository is `agent_loop` in `simple_mcp.py`: a loop that sends a
conversation to an LLM, dispatches at most one LLM-requested tool call per round
against an external tool session, appends the request/result pair to the
conversation, and terminates with the concatenated text blocks of the last LLM
response.  `testmcp.py` holds a near-duplicate (`process_claude_response`) whose
tool dispatch lacks the try/except guard.  `app.py` wraps the loop for the web
front-end (`run_agent_with_capture`).

The embedding below models:
  * LLM responses as ordered lists of content blocks (text / tool_use), matching
    `response.content` in the source;
  * the external tool session as an oracle indexed by the number of prior
    dispatches, returning either a transport fault (`Except.error`) or a
    `CallToolResult`;
  * the LLM service as an oracle indexed by the number of prior completion
    attempts (each `client.messages.create` call consumes one index), returning
    either a transport fault or a response;
  * the loop itself as a fuel-indexed step function on an explicit `LoopState`;
    the fuel never truncates the loop because the source's `while` guard requires
    `tool_call_count < max_tool_calls` and each iteration increments the counter
    by exactly one (`runLoop_fuel_stable` below);
  * observable effects (sleeps, LLM calls with the exact message list sent, tool
    dispatches) as an append-only event trace.
-/

/-- A content block of an LLM response: `{type: "text", text}` or
`{type: "tool_use", name, input, id}` (simple_mcp.py lines 85-92, 170-172).
Tool inputs are kept as opaque strings since the loop never inspects them. -/
inductive Block where
  | text (s : String)
  | tool_use (name : String) (input : String) (id : String)
deriving DecidableEq

/-- An LLM response: an ordered sequence of content blocks (`response.content`). -/
structure LLMResponse where
  content : List Block
deriving DecidableEq

/-- The normalized outcome of one tool dispatch: the `tool_output` dictionary of
simple_mcp.py lines 95-117 is either `{"result": text}` or `{"error": message}`. -/
inductive ToolOutcome where
  | ok (result : String)
  | err (message : String)
deriving DecidableEq

/-- One entry of the conversation list (simple_mcp.py lines 66-68, 119-128):
the initial user prompt, an assistant turn holding one tool_use block, or a
user-role turn holding one tool_result block echoing the request's id. -/
inductive Turn where
  | userTurn (content : String)
  | assistantToolRequest (tool_name : String) (tool_input : String) (call_id : String)
  | toolResult (tool_use_id : String) (output : ToolOutcome)
deriving DecidableEq

/-- Result of a successful (non-raising) `session.call_tool` call: the `isError`
flag and the text of the first content element, which is the only part the loop
reads (`tool_result.content[0].text`, simple_mcp.py lines 98-113). -/
structure CallToolResult where
  isError : Bool
  firstText : String
deriving DecidableEq

/-- Observable events of one run, in order: `asyncio.sleep` waits, LLM completion
calls (recording the exact `messages` list sent), and tool dispatches. -/
inductive Event where
  | sleep (seconds : Nat)
  | llmCall (messages : List Turn)
  | toolCall (name : String) (input : String)
deriving DecidableEq

/-- `any(block.type == 'tool_use' for block in response.content)`
(simple_mcp.py line 75). -/
def hasToolUse (content : List Block) : Bool :=
  content.any fun b =>
    match b with
    | Block.tool_use _ _ _ => true
    | _ => false

/-- The first tool_use block of a response, in block order: the block selected by
`for i, block in enumerate(response.content): if block.type == 'tool_use': ... break`
(simple_mcp.py lines 85-130). -/
def firstToolUse : List Block → Option (String × String × String)
  | [] => none
  | Block.tool_use n i id :: _ => some (n, i, id)
  | Block.text _ :: rest => firstToolUse rest

/-- `final_text = ""` then `final_text += block.text` over the text blocks, in
order (simple_mcp.py lines 169-172). -/
def concatTexts : List Block → String
  | [] => ""
  | Block.text t :: rest => t ++ concatTexts rest
  | Block.tool_use _ _ _ :: rest => concatTexts rest

/-- Dispatch normalization of simple_mcp.py lines 95-117: a raised transport
fault is caught and becomes `{"error": "Error making tool call: " + str(e)}`;
a service-reported failure becomes `{"error": content[0].text}`; success becomes
`{"result": content[0].text}`.  Total: dispatch never propagates a fault. -/
def dispatchOutcome : Except String CallToolResult → ToolOutcome
  | Except.error e => ToolOutcome.err ("Error making tool call: " ++ e)
  | Except.ok r => if r.isError then ToolOutcome.err r.firstText else ToolOutcome.ok r.firstText

/-- The LLM call with single retry of simple_mcp.py lines 132-163: sleep 2, then
`client.messages.create(messages=conversation)`; on a raised fault, sleep 5 and
retry exactly once; a second fault is reported (the loop then breaks).  Returns
the outcome, the next attempt index, and the emitted events. -/
def llmWithRetry (llm : Nat → Except String LLMResponse) (idx : Nat)
    (conversation : List Turn) : Except String LLMResponse × Nat × List Event :=
  match llm idx with
  | Except.ok r => (Except.ok r, idx + 1, [Event.sleep 2, Event.llmCall conversation])
  | Except.error _ =>
    match llm (idx + 1) with
    | Except.ok r =>
        (Except.ok r, idx + 2,
          [Event.sleep 2, Event.llmCall conversation, Event.sleep 5, Event.llmCall conversation])
    | Except.error e2 =>
        (Except.error e2, idx + 2,
          [Event.sleep 2, Event.llmCall conversation, Event.sleep 5, Event.llmCall conversation])

/-- The mutable state of one `agent_loop` run while inside the while loop:
the current LLM response, the conversation list, `tool_call_count`, the index of
the next LLM attempt, the event trace so far, and whether the loop broke out
after a double LLM fault (`break` at simple_mcp.py line 163). -/
structure LoopState where
  response : LLMResponse
  conversation : List Turn
  tool_call_count : Nat
  llmIdx : Nat
  trace : List Event
  failed : Bool
deriving DecidableEq

/-- The while-loop guard of simple_mcp.py line 75:
`response.content and any(block.type == 'tool_use' ...) and tool_call_count < max_tool_calls`. -/
def loopGuard (max_tc : Nat) (s : LoopState) : Bool :=
  !s.response.content.isEmpty && hasToolUse s.response.content &&
    decide (s.tool_call_count < max_tc)

/-- One iteration of the while loop (simple_mcp.py lines 75-163): increment
`tool_call_count`; sleep 3 between dispatches after the first; dispatch the first
tool_use block; append the assistant tool-request turn and the tool-result turn;
ask the LLM for the next response with single retry.  On a double LLM fault the
state is marked `failed` (the source breaks out keeping the old `response`). -/
def loopBody (session : Nat → String → String → Except String CallToolResult)
    (llm : Nat → Except String LLMResponse) (s : LoopState) : LoopState :=
  let cnt := s.tool_call_count + 1
  let rateTrace : List Event := if 1 < cnt then [Event.sleep 3] else []
  match firstToolUse s.response.content with
  | none => s
  | some (tool_name, tool_input, tool_id) =>
    let outcome := dispatchOutcome (session s.tool_call_count tool_name tool_input)
    let conv := s.conversation ++
      [Turn.assistantToolRequest tool_name tool_input tool_id,
       Turn.toolResult tool_id outcome]
    let nr := llmWithRetry llm s.llmIdx conv
    match nr.1 with
    | Except.ok r2 =>
        { response := r2, conversation := conv, tool_call_count := cnt, llmIdx := nr.2.1,
          trace := s.trace ++ rateTrace ++ [Event.toolCall tool_name tool_input] ++ nr.2.2,
          failed := false }
    | Except.error _ =>
        { response := s.response, conversation := conv, tool_call_count := cnt, llmIdx := nr.2.1,
          trace := s.trace ++ rateTrace ++ [Event.toolCall tool_name tool_input] ++ nr.2.2,
          failed := true }

/-- The while loop of simple_mcp.py lines 75-163 as a fuel-indexed iteration.
The fuel is an upper bound on the remaining iterations; since the guard requires
`tool_call_count < max_tc` and each body increments the counter by one, fuel
`max_tc` from a zero counter is exact (see `runLoop_fuel_stable`). -/
def runLoop (session : Nat → String → String → Except String CallToolResult)
    (llm : Nat → Except String LLMResponse) (max_tc : Nat) : Nat → LoopState → LoopState
  | 0, s => s
  | fuel + 1, s =>
    if loopGuard max_tc s then
      let s2 := loopBody session llm s
      if s2.failed then s2 else runLoop session llm max_tc fuel s2
    else s

/-- `max_tool_calls = 5` (simple_mcp.py line 72). -/
def max_tool_calls : Nat := 5

/-- The state right after the first LLM call succeeded with response `r0`:
conversation seeded with the user prompt (simple_mcp.py lines 49-68), counter 0,
next LLM attempt index 1, trace recording the initial LLM call. -/
def initState (prompt : String) (r0 : LLMResponse) : LoopState :=
  { response := r0
    conversation := [Turn.userTurn prompt]
    tool_call_count := 0
    llmIdx := 1
    trace := [Event.llmCall [Turn.userTurn prompt]]
    failed := false }

/-- Everything observable about one finished run: the returned `final_text`, the
final conversation list, the event trace, and the final `tool_call_count`. -/
structure RunResult where
  final_text : String
  conversation : List Turn
  trace : List Event
  tool_call_count : Nat
deriving DecidableEq

/-- `agent_loop` of simple_mcp.py (lines 28-175), from the first
`client.messages.create` call on.  A fault of that initial call is uncaught in
the source and propagates (`Except.error`).  Otherwise the while loop runs and
the function returns the concatenated text blocks of the final response
(lines 169-175). -/
def agent_loop (session : Nat → String → String → Except String CallToolResult)
    (llm : Nat → Except String LLMResponse) (prompt : String) : Except String RunResult :=
  match llm 0 with
  | Except.error e => Except.error e
  | Except.ok r0 =>
    let sF := runLoop session llm max_tool_calls max_tool_calls (initState prompt r0)
    Except.ok
      { final_text := concatTexts sF.response.content
        conversation := sF.conversation
        trace := sF.trace
        tool_call_count := sF.tool_call_count }

/-- Number of tool dispatches recorded in a trace. -/
def dispatchCount (tr : List Event) : Nat :=
  tr.countP fun e =>
    match e with
    | Event.toolCall _ _ => true
    | _ => false

/-- Number of LLM completion attempts recorded in a trace. -/
def llmAttemptCount (tr : List Event) : Nat :=
  tr.countP fun e =>
    match e with
    | Event.llmCall _ => true
    | _ => false

/-- The conversation-shape invariant: the list is a sequence of user turns and
adjacent request/result pairs; every assistant tool-request turn is immediately
followed by exactly one tool-result turn with the same call id (a second
consecutive tool-result turn, or a stray one, fails the check). -/
def requestsPaired : List Turn → Bool
  | Turn.assistantToolRequest _ _ id :: Turn.toolResult id2 _ :: rest =>
      (id == id2) && requestsPaired rest
  | Turn.assistantToolRequest _ _ _ :: _ => false
  | Turn.toolResult _ _ :: _ => false
  | Turn.userTurn _ :: rest => requestsPaired rest
  | [] => true

/-- Model of the tool-dispatch step of `process_claude_response` in testmcp.py
(lines 98-116): `session.call_tool` is awaited with no surrounding try/except, so
a transport-level fault propagates out of the dispatch boundary; only the
service-reported `isError` flag is converted into an error outcome. -/
def testmcp_dispatch (call : Except String CallToolResult) : Except String ToolOutcome :=
  match call with
  | Except.error e => Except.error e
  | Except.ok r =>
      Except.ok (if r.isError then ToolOutcome.err r.firstText else ToolOutcome.ok r.firstText)

/-- The process-wide capture object of app.py (lines 15-33). -/
structure CaptureOutput where
  logs : List String
  current_output : String
  final_result : String
deriving DecidableEq

/-- `CaptureOutput.add_log` (app.py lines 21-23). -/
def CaptureOutput.add_log (c : CaptureOutput) (message : String) : CaptureOutput :=
  { c with logs := c.logs ++ [message], current_output := c.current_output ++ message ++ "\n" }

/-- `CaptureOutput.set_result` (app.py lines 25-26). -/
def CaptureOutput.set_result (c : CaptureOutput) (result : String) : CaptureOutput :=
  { c with final_result := result }

/-- The result handling of `run_agent_with_capture` (app.py lines 59-69): a
truthy (non-empty) result is logged and stored verbatim; a falsy (empty) result
stores the fixed no-results message instead. -/
def run_agent_result_handling (c : CaptureOutput) (result : String) : CaptureOutput :=
  if result ≠ "" then
    ((c.add_log ("Final result received: " ++ toString result.length ++ " characters")).set_result
        result).add_log
      "Claude has completed all tool calls and provided the final response."
  else
    (c.add_log "Warning: Empty result received from Claude").set_result
      "No results found. Please try a different search."

/-- The value bound to `builtins.print`: either some pre-existing binding or the
`custom_print` closure of app.py lines 42-45, which wraps the saved binding. -/
inductive PrintFn where
  | builtin
  | custom_print (original : PrintFn)
deriving DecidableEq

/-- The process-wide state touched by `run_agent_with_capture`'s frame: the
`builtins.print` binding and the capture object. -/
structure Globals where
  print : PrintFn
  capture : CaptureOutput
deriving DecidableEq

/-- `builtins.print = custom_print` where `custom_print` closes over the saved
`original_print` (app.py lines 40-48). -/
def swapInCustomPrint (g : Globals) : Globals :=
  { g with print := PrintFn.custom_print g.print }

/-- The print-swapping frame of `run_agent_with_capture` (app.py lines 36-74):
save `original_print`, install the capturing wrapper, run the body (which returns
normally or raises, and may itself mutate the globals), and restore the saved
binding in a `finally` block on either path. -/
def run_agent_with_capture_frame (body : Globals → Except String String × Globals)
    (g0 : Globals) : Except String String × Globals :=
  let original_print := g0.print
  let r := body (swapInCustomPrint g0)
  (r.1, { r.2 with print := original_print })

-- Sanity checks on concrete inputs.

example : firstToolUse [Block.text "a", Block.tool_use "s" "i" "id1", Block.tool_use "t" "j" "id2"] =
    some ("s", "i", "id1") := by decide

example : concatTexts [Block.text "a", Block.tool_use "s" "i" "id1", Block.text "b"] = "ab" := rfl

example : requestsPaired [Turn.userTurn "p",
    Turn.assistantToolRequest "s" "i" "id1", Turn.toolResult "id1" (ToolOutcome.ok "r")] = true := by
  decide

example : requestsPaired [Turn.userTurn "p",
    Turn.assistantToolRequest "s" "i" "id1", Turn.toolResult "id2" (ToolOutcome.ok "r")] = false := by
  decide

-- Helper lemmas about the block-level functions.

theorem firstToolUse_isSome (content : List Block) :
    (firstToolUse content).isSome = hasToolUse content := by
  induction content with
  | nil => rfl
  | cons b rest ih =>
    cases b with
    | text s => simpa [firstToolUse, hasToolUse] using ih
    | tool_use n i id => simp [firstToolUse, hasToolUse]

theorem hasToolUse_not_isEmpty (content : List Block) (h : hasToolUse content = true) :
    content.isEmpty = false := by
  cases content with
  | nil => simp [hasToolUse] at h
  | cons b rest => rfl

theorem loopGuard_count_lt (max_tc : Nat) (s : LoopState) (h : loopGuard max_tc s = true) :
    s.tool_call_count < max_tc := by
  simp [loopGuard, Bool.and_eq_true] at h
  exact h.2

theorem loopGuard_hasToolUse (max_tc : Nat) (s : LoopState) (h : loopGuard max_tc s = true) :
    hasToolUse s.response.content = true := by
  simp [loopGuard, Bool.and_eq_true] at h
  exact h.1.2

theorem loopGuard_of_first (max_tc : Nat) (s : LoopState) (n i id : String)
    (h1 : firstToolUse s.response.content = some (n, i, id))
    (h2 : s.tool_call_count < max_tc) : loopGuard max_tc s = true := by
  have hs : (firstToolUse s.response.content).isSome = true := by rw [h1]; rfl
  rw [firstToolUse_isSome] at hs
  simp [loopGuard, Bool.and_eq_true, hs, hasToolUse_not_isEmpty _ hs, h2]

-- Helper lemmas about the LLM call with retry.

theorem llmWithRetry_ok (llm : Nat → Except String LLMResponse) (idx : Nat)
    (conversation : List Turn) (r : LLMResponse) (h : llm idx = Except.ok r) :
    llmWithRetry llm idx conversation =
      (Except.ok r, idx + 1, [Event.sleep 2, Event.llmCall conversation]) := by
  simp [llmWithRetry, h]

theorem llmWithRetry_retry_ok (llm : Nat → Except String LLMResponse) (idx : Nat)
    (conversation : List Turn) (e : String) (r : LLMResponse)
    (h1 : llm idx = Except.error e) (h2 : llm (idx + 1) = Except.ok r) :
    llmWithRetry llm idx conversation =
      (Except.ok r, idx + 2,
        [Event.sleep 2, Event.llmCall conversation, Event.sleep 5,
         Event.llmCall conversation]) := by
  simp [llmWithRetry, h1, h2]

theorem llmWithRetry_fail (llm : Nat → Except String LLMResponse) (idx : Nat)
    (conversation : List Turn) (e1 e2 : String)
    (h1 : llm idx = Except.error e1) (h2 : llm (idx + 1) = Except.error e2) :
    llmWithRetry llm idx conversation =
      (Except.error e2, idx + 2,
        [Event.sleep 2, Event.llmCall conversation, Event.sleep 5,
         Event.llmCall conversation]) := by
  simp [llmWithRetry, h1, h2]

theorem dispatchCount_llmWithRetry (llm : Nat → Except String LLMResponse) (idx : Nat)
    (conversation : List Turn) :
    dispatchCount (llmWithRetry llm idx conversation).2.2 = 0 := by
  cases h1 : llm idx with
  | ok r => simp [llmWithRetry, h1, dispatchCount]
  | error e =>
    cases h2 : llm (idx + 1) with
    | ok r => simp [llmWithRetry, h1, h2, dispatchCount]
    | error e2 => simp [llmWithRetry, h1, h2, dispatchCount]

theorem mem_llmWithRetry_llmCall (llm : Nat → Except String LLMResponse) (idx : Nat)
    (conversation m : List Turn)
    (h : Event.llmCall m ∈ (llmWithRetry llm idx conversation).2.2) : m = conversation := by
  cases h1 : llm idx with
  | ok r => rw [llmWithRetry_ok llm idx conversation r h1] at h; simpa using h
  | error e =>
    cases h2 : llm (idx + 1) with
    | ok r => rw [llmWithRetry_retry_ok llm idx conversation e r h1 h2] at h; simpa using h
    | error e2 => rw [llmWithRetry_fail llm idx conversation e e2 h1 h2] at h; simpa using h

-- Explicit equations for one loop iteration, by LLM-call outcome.

theorem loopBody_ok_eq (session : Nat → String → String → Except String CallToolResult)
    (llm : Nat → Except String LLMResponse) (s : LoopState) (n i id : String) (r2 : LLMResponse)
    (hfst : firstToolUse s.response.content = some (n, i, id))
    (hllm : llm s.llmIdx = Except.ok r2) :
    loopBody session llm s =
      { response := r2
        conversation := s.conversation ++
          [Turn.assistantToolRequest n i id,
           Turn.toolResult id (dispatchOutcome (session s.tool_call_count n i))]
        tool_call_count := s.tool_call_count + 1
        llmIdx := s.llmIdx + 1
        trace := s.trace ++ (if 1 < s.tool_call_count + 1 then [Event.sleep 3] else []) ++
          [Event.toolCall n i] ++
          [Event.sleep 2,
           Event.llmCall (s.conversation ++
             [Turn.assistantToolRequest n i id,
              Turn.toolResult id (dispatchOutcome (session s.tool_call_count n i))])]
        failed := false } := by
  simp [loopBody, hfst, llmWithRetry, hllm]

theorem loopBody_retry_ok_eq (session : Nat → String → String → Except String CallToolResult)
    (llm : Nat → Except String LLMResponse) (s : LoopState) (n i id : String) (e : String)
    (r2 : LLMResponse)
    (hfst : firstToolUse s.response.content = some (n, i, id))
    (h1 : llm s.llmIdx = Except.error e) (h2 : llm (s.llmIdx + 1) = Except.ok r2) :
    loopBody session llm s =
      { response := r2
        conversation := s.conversation ++
          [Turn.assistantToolRequest n i id,
           Turn.toolResult id (dispatchOutcome (session s.tool_call_count n i))]
        tool_call_count := s.tool_call_count + 1
        llmIdx := s.llmIdx + 2
        trace := s.trace ++ (if 1 < s.tool_call_count + 1 then [Event.sleep 3] else []) ++
          [Event.toolCall n i] ++
          [Event.sleep 2,
           Event.llmCall (s.conversation ++
             [Turn.assistantToolRequest n i id,
              Turn.toolResult id (dispatchOutcome (session s.tool_call_count n i))]),
           Event.sleep 5,
           Event.llmCall (s.conversation ++
             [Turn.assistantToolRequest n i id,
              Turn.toolResult id (dispatchOutcome (session s.tool_call_count n i))])]
        failed := false } := by
  simp [loopBody, hfst, llmWithRetry, h1, h2]

theorem loopBody_fail_eq (session : Nat → String → String → Except String CallToolResult)
    (llm : Nat → Except String LLMResponse) (s : LoopState) (n i id : String) (e1 e2 : String)
    (hfst : firstToolUse s.response.content = some (n, i, id))
    (h1 : llm s.llmIdx = Except.error e1) (h2 : llm (s.llmIdx + 1) = Except.error e2) :
    loopBody session llm s =
      { response := s.response
        conversation := s.conversation ++
          [Turn.assistantToolRequest n i id,
           Turn.toolResult id (dispatchOutcome (session s.tool_call_count n i))]
        tool_call_count := s.tool_call_count + 1
        llmIdx := s.llmIdx + 2
        trace := s.trace ++ (if 1 < s.tool_call_count + 1 then [Event.sleep 3] else []) ++
          [Event.toolCall n i] ++
          [Event.sleep 2,
           Event.llmCall (s.conversation ++
             [Turn.assistantToolRequest n i id,
              Turn.toolResult id (dispatchOutcome (session s.tool_call_count n i))]),
           Event.sleep 5,
           Event.llmCall (s.conversation ++
             [Turn.assistantToolRequest n i id,
              Turn.toolResult id (dispatchOutcome (session s.tool_call_count n i))])]
        failed := true } := by
  simp [loopBody, hfst, llmWithRetry, h1, h2]

theorem loopBody_none_eq (session : Nat → String → String → Except String CallToolResult)
    (llm : Nat → Except String LLMResponse) (s : LoopState)
    (hfst : firstToolUse s.response.content = none) : loopBody session llm s = s := by
  simp [loopBody, hfst]

theorem mem_rateTrace (c : Prop) [Decidable c] (e : Event)
    (h : e ∈ (if c then [Event.sleep 3] else [])) : e = Event.sleep 3 := by
  split at h <;> simp_all

theorem dispatchCount_rateTrace (c : Prop) [Decidable c] :
    dispatchCount (if c then [Event.sleep 3] else []) = 0 := by
  split <;> simp [dispatchCount]

/-- Combined per-iteration facts when the current response holds a tool_use
block, independent of the LLM-call outcome: the counter increments by one, the
conversation grows by exactly the request/result pair for the first tool_use
block, exactly one dispatch is recorded, and every LLM call recorded during the
iteration was sent the grown conversation. -/
theorem loopBody_some_spec (session : Nat → String → String → Except String CallToolResult)
    (llm : Nat → Except String LLMResponse) (s : LoopState) (n i id : String)
    (hfst : firstToolUse s.response.content = some (n, i, id)) :
    (loopBody session llm s).tool_call_count = s.tool_call_count + 1 ∧
    (loopBody session llm s).conversation = s.conversation ++
      [Turn.assistantToolRequest n i id,
       Turn.toolResult id (dispatchOutcome (session s.tool_call_count n i))] ∧
    dispatchCount (loopBody session llm s).trace = dispatchCount s.trace + 1 ∧
    (∀ msgs : List Turn, Event.llmCall msgs ∈ (loopBody session llm s).trace →
      Event.llmCall msgs ∈ s.trace ∨ msgs = s.conversation ++
        [Turn.assistantToolRequest n i id,
         Turn.toolResult id (dispatchOutcome (session s.tool_call_count n i))]) := by
  have hbody : loopBody session llm s = loopBody session llm s := rfl
  cases h1 : llm s.llmIdx with
  | ok r2 =>
    rw [loopBody_ok_eq session llm s n i id r2 hfst h1]
    refine ⟨rfl, rfl, ?_, ?_⟩
    · simp [dispatchCount, List.countP_append, dispatchCount_rateTrace]
    · intro msgs hm
      simp only [List.mem_append] at hm
      rcases hm with ((hm | hm) | hm) | hm
      · exact Or.inl hm
      · exact absurd (mem_rateTrace _ _ hm) (by simp)
      · simp at hm
      · simp at hm; exact Or.inr hm
  | error e =>
    cases h2 : llm (s.llmIdx + 1) with
    | ok r2 =>
      rw [loopBody_retry_ok_eq session llm s n i id e r2 hfst h1 h2]
      refine ⟨rfl, rfl, ?_, ?_⟩
      · simp [dispatchCount, List.countP_append, dispatchCount_rateTrace]
      · intro msgs hm
        simp only [List.mem_append] at hm
        rcases hm with ((hm | hm) | hm) | hm
        · exact Or.inl hm
        · exact absurd (mem_rateTrace _ _ hm) (by simp)
        · simp at hm
        · simp at hm; exact Or.inr hm
    | error e2 =>
      rw [loopBody_fail_eq session llm s n i id e e2 hfst h1 h2]
      refine ⟨rfl, rfl, ?_, ?_⟩
      · simp [dispatchCount, List.countP_append, dispatchCount_rateTrace]
      · intro msgs hm
        simp only [List.mem_append] at hm
        rcases hm with ((hm | hm) | hm) | hm
        · exact Or.inl hm
        · exact absurd (mem_rateTrace _ _ hm) (by simp)
        · simp at hm
        · simp at hm; exact Or.inr hm

theorem loopBody_count_le (session : Nat → String → String → Except String CallToolResult)
    (llm : Nat → Except String LLMResponse) (s : LoopState) :
    (loopBody session llm s).tool_call_count ≤ s.tool_call_count + 1 := by
  cases hfst : firstToolUse s.response.content with
  | none => rw [loopBody_none_eq session llm s hfst]; omega
  | some x =>
    obtain ⟨n, i, id⟩ := x
    rw [(loopBody_some_spec session llm s n i id hfst).1]

theorem loopBody_align (session : Nat → String → String → Except String CallToolResult)
    (llm : Nat → Except String LLMResponse) (s : LoopState) :
    dispatchCount (loopBody session llm s).trace + s.tool_call_count =
      dispatchCount s.trace + (loopBody session llm s).tool_call_count := by
  cases hfst : firstToolUse s.response.content with
  | none => rw [loopBody_none_eq session llm s hfst]
  | some x =>
    obtain ⟨n, i, id⟩ := x
    obtain ⟨hc, _, hd, _⟩ := loopBody_some_spec session llm s n i id hfst
    omega

theorem loopBody_conv_prefix (session : Nat → String → String → Except String CallToolResult)
    (llm : Nat → Except String LLMResponse) (s : LoopState) :
    s.conversation <+: (loopBody session llm s).conversation := by
  cases hfst : firstToolUse s.response.content with
  | none => rw [loopBody_none_eq session llm s hfst]
  | some x =>
    obtain ⟨n, i, id⟩ := x
    rw [(loopBody_some_spec session llm s n i id hfst).2.1]
    exact List.prefix_append _ _

theorem runLoop_count_le (session : Nat → String → String → Except String CallToolResult)
    (llm : Nat → Except String LLMResponse) (max_tc fuel : Nat) (s : LoopState)
    (h : s.tool_call_count ≤ max_tc) :
    (runLoop session llm max_tc fuel s).tool_call_count ≤ max_tc := by
  induction fuel generalizing s with
  | zero => simpa [runLoop] using h
  | succ fuel ih =>
    rw [runLoop]
    by_cases hg : loopGuard max_tc s = true
    · have hc : s.tool_call_count < max_tc := loopGuard_count_lt max_tc s hg
      have hb := loopBody_count_le session llm s
      simp only [hg, if_true]
      by_cases hf : (loopBody session llm s).failed = true
      · simp only [hf, if_true]; omega
      · simp only [hf, if_false]
        exact ih (loopBody session llm s) (by omega)
    · simp only [Bool.not_eq_true] at hg
      simpa [hg] using h

theorem runLoop_align (session : Nat → String → String → Except String CallToolResult)
    (llm : Nat → Except String LLMResponse) (max_tc fuel : Nat) (s : LoopState) :
    dispatchCount (runLoop session llm max_tc fuel s).trace + s.tool_call_count =
      dispatchCount s.trace + (runLoop session llm max_tc fuel s).tool_call_count := by
  induction fuel generalizing s with
  | zero => simp [runLoop]
  | succ fuel ih =>
    rw [runLoop]
    by_cases hg : loopGuard max_tc s = true
    · have hb := loopBody_align session llm s
      simp only [hg, if_true]
      by_cases hf : (loopBody session llm s).failed = true
      · simp only [hf, if_true]; omega
      · simp only [hf, Bool.false_eq_true, if_false]
        have := ih (loopBody session llm s)
        omega
    · simp only [Bool.not_eq_true] at hg
      simp [hg]

theorem runLoop_conv_prefix (session : Nat → String → String → Except String CallToolResult)
    (llm : Nat → Except String LLMResponse) (max_tc fuel : Nat) (s : LoopState) :
    s.conversation <+: (runLoop session llm max_tc fuel s).conversation := by
  induction fuel generalizing s with
  | zero => simp [runLoop]
  | succ fuel ih =>
    rw [runLoop]
    by_cases hg : loopGuard max_tc s = true
    · have hb := loopBody_conv_prefix session llm s
      simp only [hg, if_true]
      by_cases hf : (loopBody session llm s).failed = true
      · simpa [hf] using hb
      · simp only [hf, if_false]
        exact hb.trans (ih (loopBody session llm s))
    · simp only [Bool.not_eq_true] at hg
      simp [hg]

/-- The fuel of `runLoop` never truncates the source's while loop: once the fuel
covers the remaining budget `max_tc - tool_call_count`, adding more fuel does not
change the result.  `agent_loop` runs with fuel `max_tool_calls` from a zero
counter, which covers the budget exactly. -/
theorem runLoop_fuel_stable (session : Nat → String → String → Except String CallToolResult)
    (llm : Nat → Except String LLMResponse) (max_tc : Nat) (fuel : Nat) (s : LoopState)
    (h : max_tc ≤ s.tool_call_count + fuel) :
    runLoop session llm max_tc (fuel + 1) s = runLoop session llm max_tc fuel s := by
  induction fuel generalizing s with
  | zero =>
    have hg : loopGuard max_tc s = false := by
      cases hg : loopGuard max_tc s with
      | false => rfl
      | true => exact absurd (loopGuard_count_lt max_tc s hg) (by omega)
    simp [runLoop, hg]
  | succ fuel ih =>
    by_cases hg : loopGuard max_tc s = true
    · have hc : s.tool_call_count < max_tc := loopGuard_count_lt max_tc s hg
      have htool : hasToolUse s.response.content = true := loopGuard_hasToolUse max_tc s hg
      have hsome : (firstToolUse s.response.content).isSome = true := by
        rw [firstToolUse_isSome]; exact htool
      obtain ⟨x, hx⟩ := Option.isSome_iff_exists.mp hsome
      obtain ⟨n, i, id⟩ := x
      have hcnt := (loopBody_some_spec session llm s n i id hx).1
      conv_lhs => rw [runLoop]
      conv_rhs => rw [runLoop]
      simp only [hg, if_true]
      by_cases hf : (loopBody session llm s).failed = true
      · simp [hf]
      · simp only [hf, if_false]
        exact ih (loopBody session llm s) (by omega)
    · simp only [Bool.not_eq_true] at hg
      conv_lhs => rw [runLoop]
      conv_rhs => rw [runLoop]
      simp [hg]

/-- Invariants carried through the run: the conversation always satisfies the
pairing shape, and every LLM call so far was sent a well-paired message list
that is a prefix of the current conversation. -/
def TraceInv (s : LoopState) : Prop :=
  requestsPaired s.conversation = true ∧
  ∀ msgs : List Turn, Event.llmCall msgs ∈ s.trace →
    requestsPaired msgs = true ∧ msgs <+: s.conversation

theorem requestsPaired_append_pair (l : List Turn) (n i id : String) (o : ToolOutcome)
    (h : requestsPaired l = true) :
    requestsPaired (l ++ [Turn.assistantToolRequest n i id, Turn.toolResult id o]) = true := by
  induction l using requestsPaired.induct <;> simp_all [requestsPaired]

theorem loopBody_traceInv (session : Nat → String → String → Except String CallToolResult)
    (llm : Nat → Except String LLMResponse) (s : LoopState) (hInv : TraceInv s) :
    TraceInv (loopBody session llm s) := by
  cases hfst : firstToolUse s.response.content with
  | none => rw [loopBody_none_eq session llm s hfst]; exact hInv
  | some x =>
    obtain ⟨n, i, id⟩ := x
    obtain ⟨hWF, hMem⟩ := hInv
    obtain ⟨_, hconv, _, hmem⟩ := loopBody_some_spec session llm s n i id hfst
    have hWF2 : requestsPaired (loopBody session llm s).conversation = true := by
      rw [hconv]
      exact requestsPaired_append_pair s.conversation n i id _ hWF
    refine ⟨hWF2, ?_⟩
    intro msgs hm
    rcases hmem msgs hm with hold | hnew
    · obtain ⟨hp, hpre⟩ := hMem msgs hold
      refine ⟨hp, hpre.trans ?_⟩
      rw [hconv]
      exact List.prefix_append _ _
    · subst hnew
      rw [hconv] at hWF2 ⊢
      exact ⟨hWF2, List.prefix_rfl⟩

theorem runLoop_traceInv (session : Nat → String → String → Except String CallToolResult)
    (llm : Nat → Except String LLMResponse) (max_tc fuel : Nat) (s : LoopState)
    (hInv : TraceInv s) : TraceInv (runLoop session llm max_tc fuel s) := by
  induction fuel generalizing s with
  | zero => simpa [runLoop] using hInv
  | succ fuel ih =>
    rw [runLoop]
    by_cases hg : loopGuard max_tc s = true
    · simp only [hg, if_true]
      by_cases hf : (loopBody session llm s).failed = true
      · simpa [hf] using loopBody_traceInv session llm s hInv
      · simp only [hf, if_false]
        exact ih (loopBody session llm s) (loopBody_traceInv session llm s hInv)
    · simp only [Bool.not_eq_true] at hg
      simpa [hg] using hInv

-- Step-wise unfolding helpers for concrete and partially concrete runs.

theorem runLoop_stop (session : Nat → String → String → Except String CallToolResult)
    (llm : Nat → Except String LLMResponse) (max_tc fuel : Nat) (s : LoopState)
    (hg : loopGuard max_tc s = false) : runLoop session llm max_tc fuel s = s := by
  cases fuel with
  | zero => rfl
  | succ fuel => rw [runLoop]; simp [hg]

theorem runLoop_step (session : Nat → String → String → Except String CallToolResult)
    (llm : Nat → Except String LLMResponse) (max_tc fuel : Nat) (s : LoopState)
    (hg : loopGuard max_tc s = true) (hf : (loopBody session llm s).failed = false) :
    runLoop session llm max_tc (fuel + 1) s =
      runLoop session llm max_tc fuel (loopBody session llm s) := by
  rw [runLoop]; simp [hg, hf]

theorem runLoop_step_failed (session : Nat → String → String → Except String CallToolResult)
    (llm : Nat → Except String LLMResponse) (max_tc fuel : Nat) (s : LoopState)
    (hg : loopGuard max_tc s = true) (hf : (loopBody session llm s).failed = true) :
    runLoop session llm max_tc (fuel + 1) s = loopBody session llm s := by
  rw [runLoop]; simp [hg, hf]

-- Concrete oracles used by witnesses and counterexamples.

/-- A tool session that always succeeds with a fixed search result. -/
def sessOkC : Nat → String → String → Except String CallToolResult :=
  fun _ _ _ => Except.ok { isError := false, firstText := "searchResults" }

/-- A tool session whose transport always faults. -/
def sessFailC : Nat → String → String → Except String CallToolResult :=
  fun _ _ _ => Except.error "boom"

/-- A response holding a single text block. -/
def respText (t : String) : LLMResponse := { content := [Block.text t] }

/-- A response holding a single tool_use block. -/
def respTool : LLMResponse :=
  { content := [Block.tool_use "airbnb_search" "nyc-input" "toolu_1"] }

/-- An LLM that requests one tool and then answers with text only. -/
def llmOneTool : Nat → Except String LLMResponse :=
  fun k => if k = 0 then Except.ok respTool else Except.ok (respText "done")

/-- C1: For every run of the agent loop and every sequence of LLM responses
that keep requesting tools, the loop dispatches at most `max_tool_calls`
(default 5) tool invocations; the dispatch counter counts dispatched calls, not
LLM turns (the recorded number of dispatches always equals `tool_call_count`,
while the number of LLM attempts may be larger). -/
theorem budget_never_exceeded :
    (∀ (session : Nat → String → String → Except String CallToolResult)
       (llm : Nat → Except String LLMResponse) (prompt : String) (r0 : LLMResponse) (fuel : Nat),
      dispatchCount (runLoop session llm max_tool_calls fuel (initState prompt r0)).trace =
        (runLoop session llm max_tool_calls fuel (initState prompt r0)).tool_call_count ∧
      (runLoop session llm max_tool_calls fuel (initState prompt r0)).tool_call_count ≤
        max_tool_calls) ∧
    ∀ (session : Nat → String → String → Except String CallToolResult)
      (llm : Nat → Except String LLMResponse) (prompt : String) (res : RunResult),
      agent_loop session llm prompt = Except.ok res →
      dispatchCount res.trace = res.tool_call_count ∧ res.tool_call_count ≤ max_tool_calls := by
  have key : ∀ (session : Nat → String → String → Except String CallToolResult)
      (llm : Nat → Except String LLMResponse) (prompt : String) (r0 : LLMResponse) (fuel : Nat),
      dispatchCount (runLoop session llm max_tool_calls fuel (initState prompt r0)).trace =
        (runLoop session llm max_tool_calls fuel (initState prompt r0)).tool_call_count ∧
      (runLoop session llm max_tool_calls fuel (initState prompt r0)).tool_call_count ≤
        max_tool_calls := by
    intro session llm prompt r0 fuel
    have halign := runLoop_align session llm max_tool_calls fuel (initState prompt r0)
    have hd0 : dispatchCount (initState prompt r0).trace = 0 := by
      simp [initState, dispatchCount]
    have hc0 : (initState prompt r0).tool_call_count = 0 := rfl
    have hle := runLoop_count_le session llm max_tool_calls fuel (initState prompt r0)
      (by simp [initState])
    constructor
    · omega
    · exact hle
  refine ⟨key, ?_⟩
  intro session llm prompt res hres
  cases h0 : llm 0 with
  | error e => simp [agent_loop, h0] at hres
  | ok r0 =>
    simp only [agent_loop, h0] at hres
    obtain ⟨hk1, hk2⟩ := key session llm prompt r0 max_tool_calls
    cases hres
    exact ⟨hk1, hk2⟩

/-- The concrete run used by witnesses: one tool request, then a text answer. -/
def resOneTool : RunResult :=
  { final_text := "done"
    conversation := [Turn.userTurn "p",
      Turn.assistantToolRequest "airbnb_search" "nyc-input" "toolu_1",
      Turn.toolResult "toolu_1" (ToolOutcome.ok "searchResults")]
    trace := [Event.llmCall [Turn.userTurn "p"],
      Event.toolCall "airbnb_search" "nyc-input", Event.sleep 2,
      Event.llmCall [Turn.userTurn "p",
        Turn.assistantToolRequest "airbnb_search" "nyc-input" "toolu_1",
        Turn.toolResult "toolu_1" (ToolOutcome.ok "searchResults")]]
    tool_call_count := 1 }

theorem agent_loop_oneTool : agent_loop sessOkC llmOneTool "p" = Except.ok resOneTool := rfl

/-- Witness for C1 at a concrete run. -/
theorem budget_never_exceeded_witness :
    dispatchCount resOneTool.trace = resOneTool.tool_call_count ∧
      resOneTool.tool_call_count ≤ max_tool_calls :=
  budget_never_exceeded.2 sessOkC llmOneTool "p" resOneTool agent_loop_oneTool

/-- C2: In every round where the LLM response contains one or more tool-use
blocks (and budget remains, i.e. the loop guard holds), exactly one tool call is
dispatched — the first tool-use block in the response's block order; additional
tool-use blocks in the same response are not dispatched in that round (the
dispatch count grows by exactly one, and the single appended request/result pair
names the first block). -/
theorem single_dispatch_first_block
    (session : Nat → String → String → Except String CallToolResult)
    (llm : Nat → Except String LLMResponse) (max_tc : Nat) (s : LoopState) (n i id : String)
    (hg : loopGuard max_tc s = true)
    (hfst : firstToolUse s.response.content = some (n, i, id)) :
    dispatchCount (loopBody session llm s).trace = dispatchCount s.trace + 1 ∧
    (loopBody session llm s).conversation = s.conversation ++
      [Turn.assistantToolRequest n i id,
       Turn.toolResult id (dispatchOutcome (session s.tool_call_count n i))] :=
  ⟨(loopBody_some_spec session llm s n i id hfst).2.2.1,
   (loopBody_some_spec session llm s n i id hfst).2.1⟩

/-- A loop state whose current response carries two tool_use blocks. -/
def stateTwoTools : LoopState :=
  { response := { content := [Block.tool_use "airbnb_search" "inA" "idA",
      Block.tool_use "airbnb_listing_details" "inB" "idB"] }
    conversation := [Turn.userTurn "p"]
    tool_call_count := 0
    llmIdx := 1
    trace := [Event.llmCall [Turn.userTurn "p"]]
    failed := false }

/-- Witness for C2: with two tool_use blocks in the response, exactly one
dispatch happens and it is the first block (`airbnb_search`, id `idA`). -/
theorem single_dispatch_first_block_witness :
    dispatchCount (loopBody sessOkC llmOneTool stateTwoTools).trace =
      dispatchCount stateTwoTools.trace + 1 ∧
    (loopBody sessOkC llmOneTool stateTwoTools).conversation = stateTwoTools.conversation ++
      [Turn.assistantToolRequest "airbnb_search" "inA" "idA",
       Turn.toolResult "idA" (dispatchOutcome (sessOkC stateTwoTools.tool_call_count
         "airbnb_search" "inA"))] :=
  single_dispatch_first_block sessOkC llmOneTool 5 stateTwoTools "airbnb_search" "inA" "idA"
    (by decide) (by decide)

/-- C3: For every conversation produced by a run, every appended assistant
tool-request turn is immediately followed by exactly one tool-result turn with
the same call_id before the conversation is next sent to the LLM (every message
list recorded at an LLM call satisfies the pairing shape), and turns are only
ever appended, never removed or reordered (every sent message list, and the
seeded user turn, is a prefix of the final conversation). -/
theorem conversation_request_result_paired
    (session : Nat → String → String → Except String CallToolResult)
    (llm : Nat → Except String LLMResponse) (prompt : String) (res : RunResult)
    (hres : agent_loop session llm prompt = Except.ok res) :
    requestsPaired res.conversation = true ∧
    [Turn.userTurn prompt] <+: res.conversation ∧
    ∀ msgs : List Turn, Event.llmCall msgs ∈ res.trace →
      requestsPaired msgs = true ∧ msgs <+: res.conversation := by
  cases h0 : llm 0 with
  | error e => simp [agent_loop, h0] at hres
  | ok r0 =>
    simp only [agent_loop, h0] at hres
    have hInv0 : TraceInv (initState prompt r0) := by
      constructor
      · simp [initState, requestsPaired]
      · intro msgs hm
        simp [initState] at hm
        subst hm
        exact ⟨by simp [requestsPaired], List.prefix_rfl⟩
    have hInv := runLoop_traceInv session llm max_tool_calls max_tool_calls
      (initState prompt r0) hInv0
    have hpre := runLoop_conv_prefix session llm max_tool_calls max_tool_calls
      (initState prompt r0)
    cases hres
    exact ⟨hInv.1, hpre, hInv.2⟩

/-- Witness for C3 at the concrete one-tool run: the final conversation is
well-paired, and the initial LLM call's message list is a well-paired prefix. -/
theorem conversation_request_result_paired_witness :
    (requestsPaired resOneTool.conversation = true ∧
      [Turn.userTurn "p"] <+: resOneTool.conversation) ∧
    (requestsPaired [Turn.userTurn "p"] = true ∧
      [Turn.userTurn "p"] <+: resOneTool.conversation) :=
  ⟨⟨(conversation_request_result_paired sessOkC llmOneTool "p" resOneTool
        agent_loop_oneTool).1,
    (conversation_request_result_paired sessOkC llmOneTool "p" resOneTool
        agent_loop_oneTool).2.1⟩,
   (conversation_request_result_paired sessOkC llmOneTool "p" resOneTool
        agent_loop_oneTool).2.2 [Turn.userTurn "p"] (by decide)⟩

/-- C4 (amended): In `simple_mcp.py`'s `agent_loop`, tool dispatch never
propagates a transport fault past its boundary: when the session call faults,
the loop still appends the request/result pair, with the tool-result turn
carrying `Err("Error making tool call: " + fault description)` — the loop always
receives a turn back.  (`testmcp.py`'s `process_claude_response` lacks the
try/except: see `testmcp_dispatch_propagates`.) -/
theorem dispatch_converts_fault_to_turn
    (session : Nat → String → String → Except String CallToolResult)
    (llm : Nat → Except String LLMResponse) (s : LoopState) (n i id e : String)
    (hfst : firstToolUse s.response.content = some (n, i, id))
    (hsess : session s.tool_call_count n i = Except.error e) :
    (loopBody session llm s).conversation = s.conversation ++
      [Turn.assistantToolRequest n i id,
       Turn.toolResult id (ToolOutcome.err ("Error making tool call: " ++ e))] := by
  have h := (loopBody_some_spec session llm s n i id hfst).2.1
  rw [hsess] at h
  simpa [dispatchOutcome] using h

/-- Witness for C4's amended statement: a faulting session still yields an
appended `Err` tool-result turn carrying the prefixed message. -/
theorem dispatch_converts_fault_to_turn_witness :
    (loopBody sessFailC llmOneTool stateTwoTools).conversation =
      stateTwoTools.conversation ++
        [Turn.assistantToolRequest "airbnb_search" "inA" "idA",
         Turn.toolResult "idA" (ToolOutcome.err ("Error making tool call: " ++ "boom"))] :=
  dispatch_converts_fault_to_turn sessFailC llmOneTool stateTwoTools
    "airbnb_search" "inA" "idA" "boom" (by decide) rfl

/-- Counterexample to C4 as stated: in `testmcp.py`'s `process_claude_response`
(lines 98-116) the `session.call_tool` await has no surrounding try/except, so a
transport-level fault propagates out of the dispatch boundary instead of being
converted into an error-outcome tool-result turn. -/
theorem testmcp_dispatch_propagates :
    testmcp_dispatch (Except.error "connection reset") = Except.error "connection reset" ∧
    testmcp_dispatch (Except.error "connection reset") ≠
      Except.ok (ToolOutcome.err ("Error making tool call: " ++ "connection reset")) := by
  constructor
  · rfl
  · exact fun h => Except.noConfusion h

/-- C5 (amended): for every run whose initial LLM call succeeds with a
tool-requesting response, if the next LLM call (the in-loop one issued after the
first dispatch) faults, the loop waits the 5-unit backoff and retries that call
exactly once (the trace shows exactly two LLM attempts around the `sleep 5`);
if the retry also faults, the run terminates without raising and returns the
concatenation of the text blocks of the last successfully received response
(the empty string when that response has no text blocks). -/
theorem llm_double_fault_degrades
    (session : Nat → String → String → Except String CallToolResult)
    (llm : Nat → Except String LLMResponse) (prompt : String) (r0 : LLMResponse)
    (n i id e1 e2 : String)
    (h0 : llm 0 = Except.ok r0)
    (hfst : firstToolUse r0.content = some (n, i, id))
    (h1 : llm 1 = Except.error e1)
    (h2 : llm 2 = Except.error e2) :
    agent_loop session llm prompt = Except.ok
      { final_text := concatTexts r0.content
        conversation := [Turn.userTurn prompt, Turn.assistantToolRequest n i id,
          Turn.toolResult id (dispatchOutcome (session 0 n i))]
        trace := [Event.llmCall [Turn.userTurn prompt], Event.toolCall n i, Event.sleep 2,
          Event.llmCall [Turn.userTurn prompt, Turn.assistantToolRequest n i id,
            Turn.toolResult id (dispatchOutcome (session 0 n i))],
          Event.sleep 5,
          Event.llmCall [Turn.userTurn prompt, Turn.assistantToolRequest n i id,
            Turn.toolResult id (dispatchOutcome (session 0 n i))]]
        tool_call_count := 1 } := by
  have hg : loopGuard max_tool_calls (initState prompt r0) = true :=
    loopGuard_of_first max_tool_calls (initState prompt r0) n i id hfst
      (by simp [initState, max_tool_calls])
  have hbody := loopBody_fail_eq session llm (initState prompt r0) n i id e1 e2 hfst h1 h2
  have hfail : (loopBody session llm (initState prompt r0)).failed = true := by
    rw [hbody]
  have hstep : runLoop session llm max_tool_calls max_tool_calls (initState prompt r0) =
      loopBody session llm (initState prompt r0) :=
    runLoop_step_failed session llm max_tool_calls 4 (initState prompt r0) hg hfail
  simp only [agent_loop, h0]
  rw [hstep, hbody]
  simp [initState]

/-- An LLM that first answers with mixed text + tool_use content, then faults on
every later attempt. -/
def llmDoubleFault : Nat → Except String LLMResponse :=
  fun k => if k = 0 then
    Except.ok { content := [Block.text "Partial", Block.tool_use "airbnb_search" "in" "id1"] }
  else Except.error "timeout"

/-- Counterexample to C5 as stated: when the first response carries a text block
alongside the tool_use block and both in-loop LLM attempts fault, the run
returns that stale text ("Partial"), not the empty string. -/
theorem double_fault_returns_stale_text :
    Except.map (fun r => r.final_text) (agent_loop sessOkC llmDoubleFault "p") =
      Except.ok "Partial" ∧ "Partial" ≠ "" := by
  constructor
  · rfl
  · decide

/-- C6: For every LLM response containing zero tool-use blocks, the run
terminates in that round — the loop makes no further iterations from any such
state (first conjunct) — and when it is the first response, the run returns the
concatenation, in block order, of its text blocks, with exactly the one initial
LLM call in the trace and zero tool calls; the empty string is a valid final
text (see the witness). -/
theorem no_tool_use_terminates :
    (∀ (session : Nat → String → String → Except String CallToolResult)
       (llm : Nat → Except String LLMResponse) (max_tc fuel : Nat) (s : LoopState),
      hasToolUse s.response.content = false → runLoop session llm max_tc fuel s = s) ∧
    ∀ (session : Nat → String → String → Except String CallToolResult)
      (llm : Nat → Except String LLMResponse) (prompt : String) (r0 : LLMResponse),
      llm 0 = Except.ok r0 → hasToolUse r0.content = false →
      agent_loop session llm prompt = Except.ok
        { final_text := concatTexts r0.content
          conversation := [Turn.userTurn prompt]
          trace := [Event.llmCall [Turn.userTurn prompt]]
          tool_call_count := 0 } := by
  have key : ∀ (session : Nat → String → String → Except String CallToolResult)
      (llm : Nat → Except String LLMResponse) (max_tc fuel : Nat) (s : LoopState),
      hasToolUse s.response.content = false → runLoop session llm max_tc fuel s = s := by
    intro session llm max_tc fuel s h
    exact runLoop_stop session llm max_tc fuel s (by simp [loopGuard, h])
  refine ⟨key, ?_⟩
  intro session llm prompt r0 h0 hno
  simp only [agent_loop, h0]
  rw [key session llm max_tool_calls max_tool_calls (initState prompt r0) hno]
  simp [initState]

/-- Witness for C6: a first response with no tool_use blocks and no text blocks
terminates immediately with the empty string as final text. -/
theorem no_tool_use_terminates_witness :
    agent_loop sessOkC (fun _ => Except.ok { content := [] }) "p" = Except.ok
      { final_text := concatTexts ([] : List Block)
        conversation := [Turn.userTurn "p"]
        trace := [Event.llmCall [Turn.userTurn "p"]]
        tool_call_count := 0 } :=
  no_tool_use_terminates.2 sessOkC (fun _ => Except.ok { content := [] }) "p"
    { content := [] } rfl rfl

/-- When every LLM attempt up to index 5 succeeds with a tool-requesting
response, the loop runs its budget down to zero: starting with `m` iterations of
budget left (counter `5 - m`), it ends with counter 5, holding response `rs 5`,
having recorded exactly `m` more dispatches. -/
theorem runLoop_all_tools (session : Nat → String → String → Except String CallToolResult)
    (llm : Nat → Except String LLMResponse) (rs : Nat → LLMResponse)
    (hok : ∀ k, k ≤ 5 → llm k = Except.ok (rs k))
    (htool : ∀ k, k ≤ 5 → hasToolUse (rs k).content = true) :
    ∀ (m : Nat) (s : LoopState), m ≤ 5 → s.tool_call_count = 5 - m →
      s.llmIdx = s.tool_call_count + 1 → s.response = rs s.tool_call_count →
      (runLoop session llm 5 m s).tool_call_count = 5 ∧
      (runLoop session llm 5 m s).response = rs 5 ∧
      dispatchCount (runLoop session llm 5 m s).trace = dispatchCount s.trace + m := by
  intro m
  induction m with
  | zero =>
    intro s hm hc hi hr
    have hc5 : s.tool_call_count = 5 := by omega
    refine ⟨hc5, ?_, by simp [runLoop]⟩
    rw [hc5] at hr
    exact hr
  | succ m ih =>
    intro s hm hc hi hr
    have hclt : s.tool_call_count < 5 := by omega
    have htool_s : hasToolUse s.response.content = true := by
      rw [hr]; exact htool s.tool_call_count (by omega)
    have hsome : (firstToolUse s.response.content).isSome = true := by
      rw [firstToolUse_isSome]; exact htool_s
    obtain ⟨x, hx⟩ := Option.isSome_iff_exists.mp hsome
    obtain ⟨n, i, id⟩ := x
    have hg : loopGuard 5 s = true := loopGuard_of_first 5 s n i id hx hclt
    have hllm : llm s.llmIdx = Except.ok (rs (s.tool_call_count + 1)) := by
      rw [hi]; exact hok (s.tool_call_count + 1) (by omega)
    have hbody := loopBody_ok_eq session llm s n i id (rs (s.tool_call_count + 1)) hx hllm
    have hf : (loopBody session llm s).failed = false := by rw [hbody]
    have hstep := runLoop_step session llm 5 m s hg hf
    have hspec := loopBody_some_spec session llm s n i id hx
    have h1 : (loopBody session llm s).tool_call_count = 5 - m := by
      rw [hspec.1]; omega
    have h2 : (loopBody session llm s).llmIdx = (loopBody session llm s).tool_call_count + 1 := by
      rw [hbody]
      show s.llmIdx + 1 = s.tool_call_count + 1 + 1
      omega
    have h3 : (loopBody session llm s).response = rs (loopBody session llm s).tool_call_count := by
      rw [hbody]
    obtain ⟨ih1, ih2, ih3⟩ := ih (loopBody session llm s) (by omega) h1 h2 h3
    rw [hstep]
    exact ⟨ih1, ih2, by rw [ih3, hspec.2.2.1]; omega⟩

/-- C7: When the tool-call budget is exhausted and the current LLM response
still requests a tool, no further dispatch occurs and the run terminates
gracefully (an `Except.ok`, not an error), returning the concatenated text
blocks (possibly empty) of the budget-exceeding response: with budget 5, six
consecutive tool-requesting responses yield exactly 5 dispatches and final text
taken from the sixth response. -/
theorem budget_exhaustion_graceful
    (session : Nat → String → String → Except String CallToolResult)
    (llm : Nat → Except String LLMResponse) (prompt : String) (rs : Nat → LLMResponse)
    (hok : ∀ k, k ≤ 5 → llm k = Except.ok (rs k))
    (htool : ∀ k, k ≤ 5 → hasToolUse (rs k).content = true) :
    Except.map (fun r => (r.tool_call_count, dispatchCount r.trace, r.final_text))
      (agent_loop session llm prompt) = Except.ok (5, 5, concatTexts (rs 5).content) := by
  have h0 : llm 0 = Except.ok (rs 0) := hok 0 (by omega)
  simp only [agent_loop, h0]
  rw [show max_tool_calls = 5 from rfl]
  obtain ⟨ha, hb, hc2⟩ := runLoop_all_tools session llm rs hok htool 5
    (initState prompt (rs 0)) (by omega) rfl rfl rfl
  have hd0 : dispatchCount (initState prompt (rs 0)).trace = 0 := by
    simp [initState, dispatchCount]
  simp [Except.map, ha, hb, hc2, hd0]

/-- An LLM that requests a tool on every attempt. -/
def llmAllTools : Nat → Except String LLMResponse := fun _ => Except.ok respTool

/-- Witness for C7: an LLM that requests a tool forever is stopped after exactly
5 dispatches, and the (text-free) sixth response yields the empty final text. -/
theorem budget_exhaustion_graceful_witness :
    Except.map (fun r => (r.tool_call_count, dispatchCount r.trace, r.final_text))
      (agent_loop sessOkC llmAllTools "p") = Except.ok (5, 5, concatTexts respTool.content) :=
  budget_exhaustion_graceful sessOkC llmAllTools "p" (fun _ => respTool)
    (fun _ _ => rfl) (fun _ _ => rfl)

/-- C8 (amended): For a run in which the LLM requests one tool and then returns
a text-only response, the run completes after exactly 1 tool call and the
conversation holds 3 turns — user, assistant-tool-request, tool-result — with
the final text-only response not stored as a conversation turn. -/
theorem one_tool_run_three_turns
    (session : Nat → String → String → Except String CallToolResult)
    (llm : Nat → Except String LLMResponse) (prompt : String) (r0 r1 : LLMResponse)
    (n i id : String)
    (h0 : llm 0 = Except.ok r0)
    (hfst : firstToolUse r0.content = some (n, i, id))
    (h1 : llm 1 = Except.ok r1)
    (hno : hasToolUse r1.content = false) :
    agent_loop session llm prompt = Except.ok
      { final_text := concatTexts r1.content
        conversation := [Turn.userTurn prompt, Turn.assistantToolRequest n i id,
          Turn.toolResult id (dispatchOutcome (session 0 n i))]
        trace := [Event.llmCall [Turn.userTurn prompt], Event.toolCall n i, Event.sleep 2,
          Event.llmCall [Turn.userTurn prompt, Turn.assistantToolRequest n i id,
            Turn.toolResult id (dispatchOutcome (session 0 n i))]]
        tool_call_count := 1 } := by
  have hg : loopGuard max_tool_calls (initState prompt r0) = true :=
    loopGuard_of_first max_tool_calls (initState prompt r0) n i id hfst
      (by simp [initState, max_tool_calls])
  have hbody := loopBody_ok_eq session llm (initState prompt r0) n i id r1 hfst h1
  have hf : (loopBody session llm (initState prompt r0)).failed = false := by rw [hbody]
  have hstep : runLoop session llm max_tool_calls max_tool_calls (initState prompt r0) =
      runLoop session llm max_tool_calls 4 (loopBody session llm (initState prompt r0)) :=
    runLoop_step session llm max_tool_calls 4 (initState prompt r0) hg hf
  have hstop : runLoop session llm max_tool_calls 4
      (loopBody session llm (initState prompt r0)) =
      loopBody session llm (initState prompt r0) := by
    refine runLoop_stop session llm max_tool_calls 4 _ ?_
    rw [hbody]
    simp [loopGuard, hno]
  simp only [agent_loop, h0]
  rw [hstep, hstop, hbody]
  simp [initState]

/-- Counterexample to C8 as stated: in the one-tool scenario the conversation
holds 3 turns, not 4. -/
theorem one_tool_run_not_four_turns :
    Except.map (fun r => r.conversation.length) (agent_loop sessOkC llmOneTool "p") =
      Except.ok 3 ∧ (3 : Nat) ≠ 4 := by
  constructor
  · rfl
  · decide

/-- C9: For every run triggered through the web consumer, an empty (falsy)
final text is stored as the fixed no-results message, and a non-empty final
text is stored verbatim (app.py lines 59-69). -/
theorem empty_result_replaced (c : CaptureOutput) (result : String) :
    (result = "" → (run_agent_result_handling c result).final_result =
      "No results found. Please try a different search.") ∧
    (result ≠ "" → (run_agent_result_handling c result).final_result = result) := by
  constructor
  · intro h
    subst h
    simp [run_agent_result_handling, CaptureOutput.set_result, CaptureOutput.add_log]
  · intro h
    simp [run_agent_result_handling, h, CaptureOutput.set_result, CaptureOutput.add_log]

/-- The capture object as reset at the start of a run (`capture.clear()`). -/
def capture0 : CaptureOutput := { logs := [], current_output := "", final_result := "" }

/-- Witness for C9 at both branches. -/
theorem empty_result_replaced_witness :
    (run_agent_result_handling capture0 "").final_result =
      "No results found. Please try a different search." ∧
    (run_agent_result_handling capture0 "3 options found").final_result =
      "3 options found" :=
  ⟨(empty_result_replaced capture0 "").1 rfl,
   (empty_result_replaced capture0 "3 options found").2 (by decide)⟩

/-- C10: For every invocation of the web consumer's run wrapper, the
process-wide print binding is replaced by the capturing wrapper only for the
duration of the run (the body receives `custom_print` wrapping the saved
original) and is restored in the `finally` on every path, so after the run
returns or raises the global print binding is unchanged — regardless of what
the body did to the globals and of whether it returned or raised. -/
theorem print_binding_restored (body : Globals → Except String String × Globals)
    (g0 : Globals) :
    (run_agent_with_capture_frame body g0).2.print = g0.print ∧
    (swapInCustomPrint g0).print = PrintFn.custom_print g0.print :=
  ⟨rfl, rfl⟩

/-- Witness for C5's amended statement: with `llmDoubleFault` both in-loop
attempts fault; the run degrades to the stale first response's text with the
backoff and single retry visible in the trace. -/
theorem llm_double_fault_degrades_witness :
    agent_loop sessOkC llmDoubleFault "p" = Except.ok
      { final_text := concatTexts
          [Block.text "Partial", Block.tool_use "airbnb_search" "in" "id1"]
        conversation := [Turn.userTurn "p",
          Turn.assistantToolRequest "airbnb_search" "in" "id1",
          Turn.toolResult "id1" (dispatchOutcome (sessOkC 0 "airbnb_search" "in"))]
        trace := [Event.llmCall [Turn.userTurn "p"],
          Event.toolCall "airbnb_search" "in", Event.sleep 2,
          Event.llmCall [Turn.userTurn "p",
            Turn.assistantToolRequest "airbnb_search" "in" "id1",
            Turn.toolResult "id1" (dispatchOutcome (sessOkC 0 "airbnb_search" "in"))],
          Event.sleep 5,
          Event.llmCall [Turn.userTurn "p",
            Turn.assistantToolRequest "airbnb_search" "in" "id1",
            Turn.toolResult "id1" (dispatchOutcome (sessOkC 0 "airbnb_search" "in"))]]
        tool_call_count := 1 } :=
  llm_double_fault_degrades sessOkC llmDoubleFault "p"
    { content := [Block.text "Partial", Block.tool_use "airbnb_search" "in" "id1"] }
    "airbnb_search" "in" "id1" "timeout" "timeout" rfl (by decide) rfl rfl

/-- Witness for C8's amended statement at the concrete one-tool run. -/
theorem one_tool_run_three_turns_witness :
    agent_loop sessOkC llmOneTool "p" = Except.ok
      { final_text := concatTexts (respText "done").content
        conversation := [Turn.userTurn "p",
          Turn.assistantToolRequest "airbnb_search" "nyc-input" "toolu_1",
          Turn.toolResult "toolu_1" (dispatchOutcome (sessOkC 0 "airbnb_search" "nyc-input"))]
        trace := [Event.llmCall [Turn.userTurn "p"],
          Event.toolCall "airbnb_search" "nyc-input", Event.sleep 2,
          Event.llmCall [Turn.userTurn "p",
            Turn.assistantToolRequest "airbnb_search" "nyc-input" "toolu_1",
            Turn.toolResult "toolu_1"
              (dispatchOutcome (sessOkC 0 "airbnb_search" "nyc-input"))]]
        tool_call_count := 1 } :=
  one_tool_run_three_turns sessOkC llmOneTool "p" respTool (respText "done")
    "airbnb_search" "nyc-input" "toolu_1" rfl (by decide) rfl rfl
